import Mathlib

/-!
Verification development for the charged-K* resonance analysis task
(`chargedkstaranalysis.cxx`): a shallow embedding of the candidate
selectors, the same-event pairing engine and the mixed-event pairing
engine, with proofs of the selection and pairing properties.

Floating-point quantities are embedded as rationals.  The one place
where IEEE special values matter — the Armenteros-Podolanski ratio
`qtarm / alpha`, whose denominator can be zero — is embedded with an
explicit value type carrying the IEEE outcomes (finite, plus or minus
infinity, NaN) of the division and of the comparison against the cut.
-/

/-- Pion mass from the PDG database (`TDatabasePDG`, `kPiPlus`), GeV. -/
def massPi : ℚ := 13957039 / 100000000

/-- K0-short mass from the PDG database (`TDatabasePDG`, `kK0Short`), GeV. -/
def massK0s : ℚ := 497611 / 1000000

/-- The configurable cut parameters of the task, one field per
`Configurable` used by the selection and pairing code. -/
structure Config where
  iscustomDCAcut : Bool
  ismanualDCAcut : Bool
  cfgITScluster : ℤ
  cfgCutDCAxy : ℚ
  cfgCutDCAz : ℚ
  nsigmaCutTPC : ℚ
  nsigmaCutCombined : ℚ
  ConfV0PtMin : ℚ
  ConfV0DCADaughMax : ℚ
  ConfV0CPAMin : ℚ
  ConfV0TranRadV0Min : ℚ
  ConfV0TranRadV0Max : ℚ
  cMaxV0LifeTime : ℚ
  cMaxV0DCA : ℚ
  cSigmaMassKs0 : ℚ
  cWidthKs0 : ℚ
  ConfDaughEta : ℚ
  ConfDaughTPCnclsMin : ℚ
  ConfDaughDCAMin : ℚ
  ConfDaughPIDCuts : ℚ
  cfgMultFT0 : Bool
  cfgCentFT0C : Bool
  QAbefore : Bool
  QAafter : Bool
  QAv0 : Bool
  deriving DecidableEq

/-- The default values of the configurables, as declared in the source. -/
def defaultConfig : Config where
  iscustomDCAcut := false
  ismanualDCAcut := true
  cfgITScluster := 0
  cfgCutDCAxy := 2
  cfgCutDCAz := 2
  nsigmaCutTPC := 3
  nsigmaCutCombined := 3
  ConfV0PtMin := 0
  ConfV0DCADaughMax := 1
  ConfV0CPAMin := 197 / 200
  ConfV0TranRadV0Min := 1 / 2
  ConfV0TranRadV0Max := 200
  cMaxV0LifeTime := 15
  cMaxV0DCA := 3 / 10
  cSigmaMassKs0 := 4
  cWidthKs0 := 1 / 200
  ConfDaughEta := 4 / 5
  ConfDaughTPCnclsMin := 70
  ConfDaughDCAMin := 3 / 50
  ConfDaughPIDCuts := 4
  cfgMultFT0 := false
  cfgCentFT0C := true
  QAbefore := false
  QAafter := false
  QAv0 := false

/-- A collision record: vertex position, the sel8 quality trigger flag,
the multiplicity and centrality estimator values, the contributor count
used by the mixing bin key, and a global identity. -/
structure Collision where
  globalIndex : ℤ
  posX : ℚ
  posY : ℚ
  posZ : ℚ
  sel8 : Bool
  multZeqFT0A : ℚ
  multZeqFT0C : ℚ
  centFT0C : ℚ
  centFT0M : ℚ
  numContrib : ℤ
  deriving DecidableEq

/-- A charged-track candidate row: kinematics, charge sign, the
track-quality flags, impact parameters, PID response values and the
identities (own global index, parent collision id). -/
structure Track where
  globalIndex : ℤ
  collisionId : ℤ
  pt : ℚ
  eta : ℚ
  phi : ℚ
  sign : ℤ
  isGlobalTrack : Bool
  isGlobalTrackWoDCA : Bool
  isPVContributor : Bool
  itsNCls : ℤ
  dcaXY : ℚ
  dcaZ : ℚ
  hasTOF : Bool
  hasTPC : Bool
  tpcNSigmaPi : ℚ
  tofNSigmaPi : ℚ
  tpcNClsCrossedRows : ℤ
  tpcCrossedRowsOverFindableCls : ℚ
  tpcNClsFound : ℤ
  deriving DecidableEq

/-- A V0 (composite) candidate row: kinematics, the reconstructed
K0-short mass and rapidity, decay-topology scalars, the
Armenteros-Podolanski variables, the parent collision id, and the two
daughter tracks resolved from the candidate table.  The field
`distovertotmom` holds the value of `candidate.distovertotmom(posX,
posY, posZ)` at the owning collision vertex. -/
structure V0 where
  collisionId : ℤ
  pt : ℚ
  eta : ℚ
  phi : ℚ
  mK0Short : ℚ
  yK0Short : ℚ
  dcav0topv : ℚ
  qtarm : ℚ
  alpha : ℚ
  v0radius : ℚ
  dcaV0daughters : ℚ
  v0cosPA : ℚ
  distovertotmom : ℚ
  posTrack : Track
  negTrack : Track
  deriving DecidableEq

/-- Result of an IEEE floating-point division: a finite value, a signed
infinity, or NaN. -/
inductive FVal where
  | fin (q : ℚ)
  | posInf
  | negInf
  | nan
  deriving DecidableEq

/-- IEEE division `num / den`: finite quotient when `den ≠ 0`, a signed
infinity when `den = 0` and `num ≠ 0`, NaN for `0 / 0`.  (Rounding of
finite quotients is immaterial here and elided.) -/
def fdiv (num den : ℚ) : FVal :=
  if den ≠ 0 then .fin (num / den)
  else if 0 < num then .posInf
  else if num < 0 then .negInf
  else .nan

/-- IEEE comparison `x < c` for a division result against a finite cut:
false for `+inf` and for NaN (any comparison with NaN is false), true
for `-inf`. -/
def fvalLt (x : FVal) (c : ℚ) : Bool :=
  match x with
  | .fin q => decide (q < c)
  | .posInf => false
  | .negInf => true
  | .nan => false

/-- `selectionTrack` (source lines 204-220): rejects when the custom-DCA
policy is configured and its three-way disjunction fails, then rejects
when the manual-DCA policy is configured and its five-way disjunction
fails, otherwise accepts. -/
def selectionTrack (cfg : Config) (candidate : Track) : Bool :=
  if cfg.iscustomDCAcut &&
      !(candidate.isGlobalTrack || candidate.isPVContributor ||
        decide (cfg.cfgITScluster < candidate.itsNCls)) then
    false
  else if cfg.ismanualDCAcut &&
      !(candidate.isGlobalTrackWoDCA || candidate.isPVContributor ||
        decide (|candidate.dcaXY| < cfg.cfgCutDCAxy) ||
        decide (|candidate.dcaZ| < cfg.cfgCutDCAz) ||
        decide (cfg.cfgITScluster < candidate.itsNCls)) then
    false
  else
    true

/-- `selectionPID` (source lines 222-236): accept on TOF-present
combined quadrature cut, else accept on TOF-absent TPC-only cut, else
reject. -/
def selectionPID (cfg : Config) (candidate : Track) : Bool :=
  if candidate.hasTOF &&
      decide (candidate.tofNSigmaPi * candidate.tofNSigmaPi +
        candidate.tpcNSigmaPi * candidate.tpcNSigmaPi <
        cfg.nsigmaCutCombined * cfg.nsigmaCutCombined) then
    true
  else if !candidate.hasTOF &&
      decide (|candidate.tpcNSigmaPi| < cfg.nsigmaCutTPC) then
    true
  else
    false

/-- `SelectionV0` (source lines 238-301), decision part: the chain of
early-return topology and mass cuts.  The Armenteros-Podolanski ratio
`qtarm / alpha` is an IEEE division (`fdiv`) and the `arm < 0.2` test an
IEEE comparison (`fvalLt`).  The K0-short mass window is centred on the
hard-coded `0.497`; the lifetime uses the PDG `massK0s`.  The
`multiplicity` argument is only read by the QA fills, modelled
separately in `seV0Fills` and `meCombFill`. -/
def SelectionV0 (cfg : Config) (candidate : V0) (multiplicity : ℚ) : Bool :=
  if decide (|candidate.dcav0topv| > cfg.cMaxV0DCA) then false
  else if decide (|candidate.yK0Short| > 1 / 2) then false
  else
    let arm : FVal := fdiv candidate.qtarm candidate.alpha
    let CtauK0s : ℚ := candidate.distovertotmom * massK0s
    let lowmasscutks0 : ℚ := 497 / 1000 - cfg.cWidthKs0 * cfg.cSigmaMassKs0
    let highmasscutks0 : ℚ := 497 / 1000 + cfg.cWidthKs0 * cfg.cSigmaMassKs0
    if decide (candidate.pt < cfg.ConfV0PtMin) then false
    else if decide (candidate.dcaV0daughters > cfg.ConfV0DCADaughMax) then false
    else if decide (candidate.v0cosPA < cfg.ConfV0CPAMin) then false
    else if decide (candidate.v0radius < cfg.ConfV0TranRadV0Min) then false
    else if decide (candidate.v0radius > cfg.ConfV0TranRadV0Max) then false
    else if decide (|CtauK0s| > cfg.cMaxV0LifeTime) ||
        decide (candidate.mK0Short < lowmasscutks0) ||
        decide (candidate.mK0Short > highmasscutks0) then false
    else if fvalLt arm (1 / 5) then false
    else true

/-- The charge-compatibility check of `isSelectedV0Daughter` (source
lines 319-324): reject when the requested charge is negative but the
track sign is positive, or the requested charge is positive but the
track sign is negative. -/
def chargeCompatible (charge : ℚ) (sign : ℤ) : Bool :=
  if decide (charge < 0) && decide (0 < sign) then false
  else if decide (0 < charge) && decide (sign < 0) then false
  else true

/-- `isSelectedV0Daughter` (source lines 303-339): the chain of
early-return daughter-quality cuts; the two charge-sign early returns
are grouped in `chargeCompatible`. -/
def isSelectedV0Daughter (cfg : Config) (track : Track) (charge : ℚ)
    (nsigmaV0Daughter : ℚ) : Bool :=
  if !track.hasTPC then false
  else if decide (track.tpcNClsCrossedRows < 70) then false
  else if decide (track.tpcCrossedRowsOverFindableCls < 4 / 5) then false
  else if !chargeCompatible charge track.sign then false
  else if decide (|track.eta| > cfg.ConfDaughEta) then false
  else if decide ((track.tpcNClsFound : ℚ) < cfg.ConfDaughTPCnclsMin) then false
  else if decide (|track.dcaXY| < cfg.ConfDaughDCAMin) then false
  else if decide (|nsigmaV0Daughter| > cfg.ConfDaughPIDCuts) then false
  else true

/-- The three-way multiplicity-estimator switch shared by `processSE`
and `processME` (source lines 405-411 and 511-517): forward-sum when
`cfgMultFT0`, else FT0C centrality when `cfgCentFT0C`, else FT0M
centrality. -/
def multEstimate (cfg : Config) (c : Collision) : ℚ :=
  if cfg.cfgMultFT0 then c.multZeqFT0A + c.multZeqFT0C
  else if cfg.cfgCentFT0C then c.centFT0C
  else c.centFT0M

/-- A (pt, eta, phi, mass) 4-vector specification, the arguments of
`PtEtaPhiMVector` / `TLorentzVector::SetPtEtaPhiM`. -/
structure LV where
  pt : ℚ
  eta : ℚ
  phi : ℚ
  m : ℚ
  deriving DecidableEq

/-- The external 4-vector arithmetic (ROOT): the rapidity, transverse
momentum and invariant mass of the sum of two `LV`s.  The engine is
parametric in these transcendental operations; the pairing logic only
forwards their values. -/
structure VecOps where
  rapidity : LV → LV → ℚ
  sumPt : LV → LV → ℚ
  sumM : LV → LV → ℚ

/-- The pion-hypothesis 4-vector built from a track (source line 439). -/
def pionLV (t : Track) : LV := ⟨t.pt, t.eta, t.phi, massPi⟩

/-- The K0-short-hypothesis 4-vector built from a V0 (source line 465). -/
def kshortLV (v : V0) : LV := ⟨v.pt, v.eta, v.phi, massK0s⟩

/-- One histogram fill event: a 1-dimensional counter/QA fill, the
3-dimensional V0 QA fill, or a mass-accumulator fill.  A mass fill
records its coordinates (multiplicity, pair pT, pair mass) together
with the pair rapidity that was tested by the gate. -/
inductive FillEvent where
  | count (name : String) (x : ℚ)
  | qa3 (name : String) (a b c : ℚ)
  | massFill (name : String) (mult pt m rap : ℚ)
  deriving DecidableEq

/-- The QA fills performed inside `SelectionV0` when a candidate is
accepted and `QAv0` is on (source lines 293-299). -/
def v0QAFillList (v : V0) (multiplicity : ℚ) : List FillEvent :=
  [.count "hLT" (v.distovertotmom * massK0s),
   .qa3 "hMassvsptvsmult" v.mK0Short v.pt multiplicity,
   .count "hDCAV0Daughters" v.dcaV0daughters,
   .count "hV0CosPA" v.v0cosPA]

/-- The fills of the same-event track loop (source lines 417-445):
per track, the QA-before fills, then — when the track passes PID and
track selection — the QA-after fills. -/
def seTrackFills (cfg : Config) (tracks : List Track) : List FillEvent :=
  tracks.flatMap fun t =>
    (if cfg.QAbefore then
      [.count "hNsigmaPionTPC_before" t.tpcNSigmaPi,
       .count "hNsigmaPionTOF_before" t.tofNSigmaPi]
     else []) ++
    (if selectionPID cfg t && selectionTrack cfg t && cfg.QAafter then
      [.count "hEta_after" t.eta,
       .count "hDcaxy_after" t.dcaXY,
       .count "hDcaz_after" t.dcaZ,
       .count "hNsigmaPionTPC_after" t.tpcNSigmaPi,
       .count "hNsigmaPionTOF_after" t.tofNSigmaPi]
     else [])

/-- The accepted pions of the same-event track loop: tracks passing PID
acceptance then track acceptance (source lines 424-429). -/
def sePions (cfg : Config) (tracks : List Track) : List Track :=
  tracks.filter fun t => selectionPID cfg t && selectionTrack cfg t

/-- Whether a V0 survives the same-event V0 loop (source lines 447-463):
both daughters pass daughter acceptance with their own TPC pion sigma
and expected charge sign, and the candidate passes topology
acceptance. -/
def seV0Accepted (cfg : Config) (multiplicity : ℚ) (v : V0) : Bool :=
  isSelectedV0Daughter cfg v.posTrack 1 v.posTrack.tpcNSigmaPi &&
  isSelectedV0Daughter cfg v.negTrack (-1) v.negTrack.tpcNSigmaPi &&
  SelectionV0 cfg v multiplicity

/-- The accepted K0-short list of the same-event V0 loop. -/
def seKshorts (cfg : Config) (multiplicity : ℚ) (v0s : List V0) : List V0 :=
  v0s.filter (seV0Accepted cfg multiplicity)

/-- The QA fills emitted while scanning the same-event V0 loop: the
`SelectionV0` QA block runs for each accepted candidate when `QAv0` is
on. -/
def seV0Fills (cfg : Config) (multiplicity : ℚ) (v0s : List V0) : List FillEvent :=
  v0s.flatMap fun v =>
    if seV0Accepted cfg multiplicity v && cfg.QAv0 then
      v0QAFillList v multiplicity
    else []

/-- One step of the same-event pair loop (source lines 473-491): skip
the pair when the pion identity equals the positive-daughter identity,
when it equals the negative-daughter identity, or when the collision
ids differ; otherwise sum the 4-vectors and, when the absolute pair
rapidity is below 0.5, emit the unlike-sign mass fill. -/
def sePairFill (ops : VecOps) (multiplicity : ℚ) (p : Track) (k : V0) :
    Option FillEvent :=
  if p.globalIndex = k.posTrack.globalIndex then none
  else if p.globalIndex = k.negTrack.globalIndex then none
  else if p.collisionId ≠ k.collisionId then none
  else if |ops.rapidity (pionLV p) (kshortLV k)| < 1 / 2 then
    some (.massFill "h3CKSInvMassUnlikeSign" multiplicity
      (ops.sumPt (pionLV p) (kshortLV k)) (ops.sumM (pionLV p) (kshortLV k))
      (ops.rapidity (pionLV p) (kshortLV k)))
  else none

/-- `processSE` (source lines 389-493): the full same-event engine for
one collision, returning the sequence of accumulator fills.  A
collision failing sel8 returns before any fill; otherwise the event
counters, the track-loop fills, the V0-loop QA fills and the pair-loop
mass fills are emitted in program order. -/
def processSE (cfg : Config) (ops : VecOps) (collision : Collision)
    (tracks : List Track) (v0s : List V0) : List FillEvent :=
  if !collision.sel8 then []
  else
    let multiplicity := multEstimate cfg collision
    [.count "hVertexZRec" collision.posZ, .count "hmult" multiplicity] ++
    seTrackFills cfg tracks ++
    seV0Fills cfg multiplicity v0s ++
    (sePions cfg tracks).flatMap fun p =>
      (seKshorts cfg multiplicity v0s).filterMap (sePairFill ops multiplicity p)

/-- The QA fills of one mixed-event combination: the `SelectionV0` QA
block runs when the first-collision track passed track and PID
acceptance, the second-collision V0 passed topology acceptance, and
`QAv0` is on (source line 526 reaching lines 293-299). -/
def meQAFills (cfg : Config) (multiplicity : ℚ) (t1 : Track) (t2 : V0) :
    List FillEvent :=
  if selectionTrack cfg t1 && selectionPID cfg t1 &&
      SelectionV0 cfg t2 multiplicity && cfg.QAv0 then
    v0QAFillList t2 multiplicity
  else []

/-- The optional mass fill of one mixed-event combination (source lines
522-551): the first-collision track must pass track then PID
acceptance, the second-collision V0 must pass topology acceptance and
both daughter acceptances; the surviving combination sums the
4-vectors and, under the rapidity gate, emits the mixed mass fill. -/
def meMassFillOpt (cfg : Config) (ops : VecOps) (multiplicity : ℚ)
    (t1 : Track) (t2 : V0) : Option FillEvent :=
  if !selectionTrack cfg t1 then none
  else if !selectionPID cfg t1 then none
  else if !SelectionV0 cfg t2 multiplicity then none
  else if !isSelectedV0Daughter cfg t2.posTrack 1 t2.posTrack.tpcNSigmaPi then none
  else if !isSelectedV0Daughter cfg t2.negTrack (-1) t2.negTrack.tpcNSigmaPi then none
  else if |ops.rapidity (pionLV t1) (kshortLV t2)| < 1 / 2 then
    some (.massFill "h3CKSInvMassMixed" multiplicity
      (ops.sumPt (pionLV t1) (kshortLV t2)) (ops.sumM (pionLV t1) (kshortLV t2))
      (ops.rapidity (pionLV t1) (kshortLV t2)))
  else none

/-- All fills of one combination of the mixed-event pair loop (source
lines 519-552): the QA fills, then the mass fill when every check and
the rapidity gate pass. -/
def meCombFill (cfg : Config) (ops : VecOps) (multiplicity : ℚ)
    (t1 : Track) (t2 : V0) : List FillEvent :=
  meQAFills cfg multiplicity t1 t2 ++
    (meMassFillOpt cfg ops multiplicity t1 t2).toList

/-- `processME` (source lines 497-554): the mixed-event engine over the
collision pairs supplied by the pairing component.  Each supplied pair
is skipped unless both collisions pass sel8; the multiplicity is
computed from the first collision only; the full cross product of the
first collision's tracks against the second collision's V0s is
scanned. -/
def processME (cfg : Config) (ops : VecOps)
    (pairsIn : List (Collision × List Track × Collision × List V0)) :
    List FillEvent :=
  pairsIn.flatMap fun q =>
    if !q.1.sel8 then []
    else if !q.2.2.1.sel8 then []
    else
      let multiplicity := multEstimate cfg q.1
      q.2.1.flatMap fun t1 =>
        q.2.2.2.flatMap fun t2 => meCombFill cfg ops multiplicity t1 t2

/-- Modelled from the spec: the two-dimensional mixing bin key.  The
framework `ColumnBinningPolicy` that computes it is not part of this
repository's source; per the spec, collisions are bucketed by vertex
z-position on the configured `axisVertex` (20 bins over [-10, 10]) and
by the contributor multiplicity on the configured `axisMultiplicity`
(2000 bins over [0, 10000]), entries outside the axes being skipped
(the policy's overflow-skip flag is set). -/
def binKey (c : Collision) : Option (ℤ × ℤ) :=
  let zb : ℤ := ⌊(c.posZ + 10) / 1⌋
  let mb : ℤ := ⌊(c.numContrib : ℚ) / 5⌋
  if 0 ≤ zb ∧ zb < 20 ∧ 0 ≤ mb ∧ mb < 2000 then some (zb, mb) else none

/-- Modelled from the spec: the pairing component supplying mixed-event
collision pairs.  For each anchor collision it draws up to `nMix`
distinct partner collisions from the same bin (self-pairs excluded,
both collisions inside the binned region). -/
def mixingPairs (nMix : ℕ) (collisions : List Collision) :
    List (Collision × Collision) :=
  collisions.flatMap fun c1 =>
    ((collisions.filter fun c2 =>
        c2.globalIndex ≠ c1.globalIndex &&
        (binKey c1).isSome && binKey c2 = binKey c1).take nMix).map
      fun c2 => (c1, c2)

/-- An early-return step `if b then false else r` is the conjunction
`!b && r`. -/
theorem iteFalseChain (b r : Bool) : (if b = true then false else r) = (!b && r) := by
  cases b <;> simp

/-- `SelectionV0` in conjunction normal form: the early-return chain is
the conjunction of the negated cut conditions. -/
theorem SelectionV0_eq_conj (cfg : Config) (v : V0) (mult : ℚ) :
    SelectionV0 cfg v mult =
      (!decide (|v.dcav0topv| > cfg.cMaxV0DCA) &&
       !decide (|v.yK0Short| > 1 / 2) &&
       !decide (v.pt < cfg.ConfV0PtMin) &&
       !decide (v.dcaV0daughters > cfg.ConfV0DCADaughMax) &&
       !decide (v.v0cosPA < cfg.ConfV0CPAMin) &&
       !decide (v.v0radius < cfg.ConfV0TranRadV0Min) &&
       !decide (v.v0radius > cfg.ConfV0TranRadV0Max) &&
       !(decide (|v.distovertotmom * massK0s| > cfg.cMaxV0LifeTime) ||
         decide (v.mK0Short < 497 / 1000 - cfg.cWidthKs0 * cfg.cSigmaMassKs0) ||
         decide (v.mK0Short > 497 / 1000 + cfg.cWidthKs0 * cfg.cSigmaMassKs0)) &&
       !fvalLt (fdiv v.qtarm v.alpha) (1 / 5)) := by
  unfold SelectionV0
  simp only [iteFalseChain]
  simp [Bool.and_assoc]

/-- Every `SelectionV0` cut except the mass window (the cuts the mass
window shares an early return with — lifetime — and all others). -/
def v0CutsExceptMass (cfg : Config) (v : V0) : Bool :=
  !decide (|v.dcav0topv| > cfg.cMaxV0DCA) &&
  !decide (|v.yK0Short| > 1 / 2) &&
  !decide (v.pt < cfg.ConfV0PtMin) &&
  !decide (v.dcaV0daughters > cfg.ConfV0DCADaughMax) &&
  !decide (v.v0cosPA < cfg.ConfV0CPAMin) &&
  !decide (v.v0radius < cfg.ConfV0TranRadV0Min) &&
  !decide (v.v0radius > cfg.ConfV0TranRadV0Max) &&
  !decide (|v.distovertotmom * massK0s| > cfg.cMaxV0LifeTime) &&
  !fvalLt (fdiv v.qtarm v.alpha) (1 / 5)

/-- Every `SelectionV0` cut except the Armenteros-Podolanski ratio
cut. -/
def v0CutsExceptArm (cfg : Config) (v : V0) : Bool :=
  !decide (|v.dcav0topv| > cfg.cMaxV0DCA) &&
  !decide (|v.yK0Short| > 1 / 2) &&
  !decide (v.pt < cfg.ConfV0PtMin) &&
  !decide (v.dcaV0daughters > cfg.ConfV0DCADaughMax) &&
  !decide (v.v0cosPA < cfg.ConfV0CPAMin) &&
  !decide (v.v0radius < cfg.ConfV0TranRadV0Min) &&
  !decide (v.v0radius > cfg.ConfV0TranRadV0Max) &&
  !(decide (|v.distovertotmom * massK0s| > cfg.cMaxV0LifeTime) ||
    decide (v.mK0Short < 497 / 1000 - cfg.cWidthKs0 * cfg.cSigmaMassKs0) ||
    decide (v.mK0Short > 497 / 1000 + cfg.cWidthKs0 * cfg.cSigmaMassKs0))

/-- A concrete track that passes PID and track selection with the
default configuration. -/
def trackPion : Track where
  globalIndex := 1
  collisionId := 0
  pt := 1
  eta := 0
  phi := 0
  sign := 1
  isGlobalTrack := true
  isGlobalTrackWoDCA := true
  isPVContributor := true
  itsNCls := 5
  dcaXY := 1
  dcaZ := 1
  hasTOF := false
  hasTPC := true
  tpcNSigmaPi := 0
  tofNSigmaPi := 0
  tpcNClsCrossedRows := 100
  tpcCrossedRowsOverFindableCls := 1
  tpcNClsFound := 100

/-- A concrete positive daughter passing daughter selection. -/
def posDaughter : Track := { trackPion with globalIndex := 2 }

/-- A concrete negative daughter passing daughter selection. -/
def negDaughter : Track := { trackPion with globalIndex := 3, sign := -1 }

/-- A concrete V0 candidate that passes daughter and topology selection
with the default configuration. -/
def v0Good : V0 where
  collisionId := 0
  pt := 1
  eta := 0
  phi := 0
  mK0Short := 497 / 1000
  yK0Short := 0
  dcav0topv := 0
  qtarm := 1 / 10
  alpha := 1 / 4
  v0radius := 1
  dcaV0daughters := 1 / 2
  v0cosPA := 1
  distovertotmom := 0
  posTrack := posDaughter
  negTrack := negDaughter

/-- `v0Good` with a zero Armenteros-Podolanski alpha. -/
def v0ZeroAlpha : V0 := { v0Good with alpha := 0 }

/-- `v0Good` with a reconstructed mass far outside the window. -/
def v0BadMass : V0 := { v0Good with mK0Short := 1 }

/-- A concrete collision passing sel8. -/
def collGood : Collision where
  globalIndex := 0
  posX := 0
  posY := 0
  posZ := 0
  sel8 := true
  multZeqFT0A := 0
  multZeqFT0C := 0
  centFT0C := 50
  centFT0M := 50
  numContrib := 10

/-- `collGood` with the sel8 trigger flag unset. -/
def collNoSel8 : Collision := { collGood with sel8 := false }

/-- A second collision in the same mixing bin as `collGood`. -/
def collPartner : Collision := { collGood with globalIndex := 1 }

/-- Concrete 4-vector operations for witnesses: zero rapidity, additive
pT, unit mass. -/
def opsZero : VecOps where
  rapidity := fun _ _ => 0
  sumPt := fun a b => a.pt + b.pt
  sumM := fun _ _ => 1

/-- Claim C1 counterexample: a candidate whose Armenteros-Podolanski
alpha equals 0 (with positive qt) is accepted by `SelectionV0` under the
default configuration when every other cut passes — zero alpha is not an
automatic rejection. -/
theorem selectionV0_zeroAlpha_counterexample :
    v0ZeroAlpha.alpha = 0 ∧ SelectionV0 defaultConfig v0ZeroAlpha 50 = true := by
  constructor
  · rfl
  · norm_num [SelectionV0, defaultConfig, v0ZeroAlpha, v0Good, posDaughter,
      negDaughter, trackPion, fdiv, fvalLt, massK0s]

/-- Claim C1 (amended): a zero Armenteros-Podolanski alpha never
propagates a division fault — the IEEE quotient is an infinity or NaN —
but it does not cause automatic rejection: when `qtarm ≥ 0` the
`arm < 0.2` rejection never fires, so the candidate is accepted whenever
every other cut passes. -/
theorem selectionV0_zeroAlpha_accepts (cfg : Config) (v : V0) (mult : ℚ)
    (halpha : v.alpha = 0) (hqt : 0 ≤ v.qtarm)
    (hcuts : v0CutsExceptArm cfg v = true) :
    SelectionV0 cfg v mult = true := by
  have harm : fvalLt (fdiv v.qtarm v.alpha) (1 / 5) = false := by
    rcases eq_or_lt_of_le hqt with h | h
    · simp [fdiv, halpha, ← h, fvalLt]
    · simp [fdiv, halpha, h, not_lt.mpr (le_of_lt h), fvalLt]
  rw [SelectionV0_eq_conj]
  simp only [v0CutsExceptArm, Bool.and_eq_true] at hcuts
  simp only [Bool.and_eq_true, harm, Bool.not_false]
  tauto

/-- Claim C1 (amended) witness: the concrete zero-alpha candidate is
accepted under the default configuration. -/
theorem selectionV0_zeroAlpha_accepts_witness :
    SelectionV0 defaultConfig v0ZeroAlpha 50 = true :=
  selectionV0_zeroAlpha_accepts defaultConfig v0ZeroAlpha 50 rfl
    (by norm_num [v0ZeroAlpha, v0Good, posDaughter, negDaughter, trackPion])
    (by norm_num [v0CutsExceptArm, v0ZeroAlpha, v0Good, posDaughter,
      negDaughter, trackPion, defaultConfig, massK0s])

/-- Claim C2: `SelectionV0` returns false whenever the reconstructed
mass lies strictly outside the window centred on the nominal 0.497 with
half-width `cWidthKs0 * cSigmaMassKs0`, and returns true for a candidate
whose mass is exactly the nominal value when the half-width is
nonnegative and every other cut passes. -/
theorem selectionV0_massWindow (cfg : Config) (v : V0) (mult : ℚ) :
    ((v.mK0Short < 497 / 1000 - cfg.cWidthKs0 * cfg.cSigmaMassKs0 ∨
      497 / 1000 + cfg.cWidthKs0 * cfg.cSigmaMassKs0 < v.mK0Short) →
      SelectionV0 cfg v mult = false) ∧
    ((v.mK0Short = 497 / 1000 ∧ 0 ≤ cfg.cWidthKs0 * cfg.cSigmaMassKs0 ∧
      v0CutsExceptMass cfg v = true) →
      SelectionV0 cfg v mult = true) := by
  constructor
  · intro h
    rw [SelectionV0_eq_conj]
    rcases h with h | h <;> simp [h]
  · rintro ⟨hm, hw, hc⟩
    have hlo : ¬(v.mK0Short < 497 / 1000 - cfg.cWidthKs0 * cfg.cSigmaMassKs0) := by
      rw [hm]; linarith
    have hhi : ¬(497 / 1000 + cfg.cWidthKs0 * cfg.cSigmaMassKs0 < v.mK0Short) := by
      rw [hm]; linarith
    rw [SelectionV0_eq_conj]
    simp [v0CutsExceptMass, Bool.and_eq_true, Bool.not_eq_true',
      decide_eq_false_iff_not] at hc
    simp [hlo, hhi, Bool.and_eq_true, Bool.not_eq_true',
      decide_eq_false_iff_not]
    tauto

/-- Claim C2 witness: a far-out-of-window mass is rejected and the
exactly-nominal candidate is accepted under the default
configuration. -/
theorem selectionV0_massWindow_witness :
    SelectionV0 defaultConfig v0BadMass 50 = false ∧
    SelectionV0 defaultConfig v0Good 50 = true := by
  constructor
  · exact (selectionV0_massWindow defaultConfig v0BadMass 50).1
      (Or.inr (by norm_num [v0BadMass, v0Good, defaultConfig]))
  · exact (selectionV0_massWindow defaultConfig v0Good 50).2
      ⟨rfl, by norm_num [defaultConfig],
       by norm_num [v0CutsExceptMass, v0Good, posDaughter, negDaughter,
         trackPion, defaultConfig, massK0s, fdiv, fvalLt]⟩

/-- Claim C5: a collision whose sel8 trigger flag is false produces no
fill of any kind from the same-event engine. -/
theorem processSE_skips_noSel8 (cfg : Config) (ops : VecOps)
    (collision : Collision) (tracks : List Track) (v0s : List V0)
    (h : collision.sel8 = false) :
    processSE cfg ops collision tracks v0s = [] := by
  simp [processSE, h]

/-- Claim C5 witness: the concrete sel8-false collision yields an empty
fill sequence. -/
theorem processSE_skips_noSel8_witness :
    processSE defaultConfig opsZero collNoSel8 [trackPion] [v0Good] = [] :=
  processSE_skips_noSel8 defaultConfig opsZero collNoSel8 [trackPion] [v0Good] rfl

/-- Claim C7: `selectionPID` accepts a candidate exactly when it has a
TOF measurement with the combined quadrature below the squared combined
cut, or lacks TOF with the absolute TPC sigma below the TPC-only
cut. -/
theorem selectionPID_iff (cfg : Config) (t : Track) :
    selectionPID cfg t = true ↔
      ((t.hasTOF = true ∧
        t.tofNSigmaPi * t.tofNSigmaPi + t.tpcNSigmaPi * t.tpcNSigmaPi <
          cfg.nsigmaCutCombined * cfg.nsigmaCutCombined) ∨
       (t.hasTOF = false ∧ |t.tpcNSigmaPi| < cfg.nsigmaCutTPC)) := by
  unfold selectionPID
  cases h : t.hasTOF <;> simp [h]

/-- Claim C9: the same-event engine is deterministic — equal
(collision, tracks, composites) inputs produce equal fill sequences. -/
theorem processSE_deterministic (cfg : Config) (ops : VecOps)
    (c1 c2 : Collision) (ts1 ts2 : List Track) (vs1 vs2 : List V0)
    (hc : c1 = c2) (ht : ts1 = ts2) (hv : vs1 = vs2) :
    processSE cfg ops c1 ts1 vs1 = processSE cfg ops c2 ts2 vs2 := by
  rw [hc, ht, hv]

/-- Claim C9 witness: two runs on the identical concrete input agree. -/
theorem processSE_deterministic_witness :
    processSE defaultConfig opsZero collGood [trackPion] [v0Good] =
      processSE defaultConfig opsZero collGood [trackPion] [v0Good] :=
  processSE_deterministic defaultConfig opsZero collGood collGood
    [trackPion] [trackPion] [v0Good] [v0Good] rfl rfl rfl

/-- A configuration with the custom-DCA track policy switched on. -/
def customConfig : Config := { defaultConfig with iscustomDCAcut := true }

/-- Claim C6: with the custom-DCA policy configured, and for any track
of the filtered candidate table (the table filter guarantees
`|dcaXY| < cfgCutDCAxy`, which makes the manual-DCA clause vacuous even
when it is also switched on), `selectionTrack` accepts exactly when the
global-track flag, the PV-contributor flag, or the ITS cluster-count
threshold holds — and rejects exactly when all three fail. -/
theorem selectionTrack_policyA (cfg : Config) (t : Track)
    (hcustom : cfg.iscustomDCAcut = true)
    (hfilter : |t.dcaXY| < cfg.cfgCutDCAxy) :
    selectionTrack cfg t = true ↔
      (t.isGlobalTrack = true ∨ t.isPVContributor = true ∨
        cfg.cfgITScluster < t.itsNCls) := by
  unfold selectionTrack
  simp [hcustom, hfilter]
  tauto

/-- Claim C6 witness: a PV-contributor track is accepted under the
custom-DCA policy. -/
theorem selectionTrack_policyA_witness :
    selectionTrack customConfig trackPion = true :=
  (selectionTrack_policyA customConfig trackPion rfl
    (by norm_num [customConfig, defaultConfig, trackPion])).mpr
    (Or.inl rfl)

/-- Claim C10: in the daughter selection, the charge-compatibility check
passes a zero track sign for both a requested positive and a requested
negative charge — it rejects only a strictly opposite nonzero sign —
and hence `isSelectedV0Daughter` treats a zero-sign track identically
under the two requested charges. -/
theorem daughterChargeCheck_zero_sign (cfg : Config) (t : Track) (ns : ℚ) :
    (∀ c : ℚ, chargeCompatible c 0 = true) ∧
    (∀ (c : ℚ) (s : ℤ), chargeCompatible c s = false ↔
      ((c < 0 ∧ 0 < s) ∨ (0 < c ∧ s < 0))) ∧
    (t.sign = 0 →
      isSelectedV0Daughter cfg t 1 ns = isSelectedV0Daughter cfg t (-1) ns) := by
  refine ⟨?_, ?_, ?_⟩
  · intro c
    simp [chargeCompatible]
  · intro c s
    unfold chargeCompatible
    split_ifs with h1 h2 <;> simp_all
  · intro h
    have e1 : chargeCompatible 1 t.sign = true := by
      rw [h]; norm_num [chargeCompatible]
    have e2 : chargeCompatible (-1) t.sign = true := by
      rw [h]; norm_num [chargeCompatible]
    unfold isSelectedV0Daughter
    rw [e1, e2]

/-- Claim C10 witness: a concrete zero-sign track passes the charge
check for requested charge +1 and is treated identically under both
requested charges. -/
theorem daughterChargeCheck_zero_sign_witness :
    chargeCompatible 1 0 = true ∧
    isSelectedV0Daughter defaultConfig { trackPion with sign := 0 } 1 0 =
      isSelectedV0Daughter defaultConfig { trackPion with sign := 0 } (-1) 0 :=
  ⟨(daughterChargeCheck_zero_sign defaultConfig trackPion 0).1 1,
   (daughterChargeCheck_zero_sign defaultConfig
     { trackPion with sign := 0 } 0).2.2 rfl⟩

/-- Membership in a Boolean-guarded list: an element of
`if b then l else []` is an element of `l`. -/
theorem mem_of_guard_mem {α : Type} {b : Bool} {l : List α} {a : α}
    (h : a ∈ if b = true then l else []) : a ∈ l := by
  cases b
  · simp at h
  · simpa using h

/-- The V0 QA fill list contains no mass-accumulator fill. -/
theorem v0QAFillList_no_massFill (v : V0) (mult : ℚ) (name : String)
    (mu pt m rap : ℚ) :
    FillEvent.massFill name mu pt m rap ∉ v0QAFillList v mult := by
  simp [v0QAFillList]

/-- The same-event track loop emits no mass-accumulator fill. -/
theorem seTrackFills_no_massFill (cfg : Config) (tracks : List Track)
    (name : String) (mu pt m rap : ℚ) :
    FillEvent.massFill name mu pt m rap ∉ seTrackFills cfg tracks := by
  intro h
  simp only [seTrackFills, List.mem_flatMap] at h
  obtain ⟨t, -, h⟩ := h
  rcases List.mem_append.mp h with h | h <;>
    · have := mem_of_guard_mem h
      simp at this

/-- The same-event V0 loop emits no mass-accumulator fill. -/
theorem seV0Fills_no_massFill (cfg : Config) (mult : ℚ) (v0s : List V0)
    (name : String) (mu pt m rap : ℚ) :
    FillEvent.massFill name mu pt m rap ∉ seV0Fills cfg mult v0s := by
  intro h
  simp only [seV0Fills, List.mem_flatMap] at h
  obtain ⟨v, -, h⟩ := h
  exact v0QAFillList_no_massFill v mult name mu pt m rap (mem_of_guard_mem h)

/-- A mass fill produced by a same-event pair step records a rapidity
that passed the gate. -/
theorem sePairFill_massFill_rap (ops : VecOps) (mult : ℚ) (p : Track)
    (k : V0) (name : String) (mu pt m rap : ℚ)
    (h : sePairFill ops mult p k = some (.massFill name mu pt m rap)) :
    |rap| < 1 / 2 := by
  unfold sePairFill at h
  split_ifs at h
  all_goals injection h with he
  all_goals injection he with e1 e2 e3 e4 e5
  all_goals subst e5
  all_goals assumption

/-- A mass fill produced by a mixed-event combination records a
rapidity that passed the gate. -/
theorem meMassFillOpt_massFill_rap (cfg : Config) (ops : VecOps)
    (mult : ℚ) (t1 : Track) (t2 : V0) (name : String) (mu pt m rap : ℚ)
    (h : meMassFillOpt cfg ops mult t1 t2 = some (.massFill name mu pt m rap)) :
    |rap| < 1 / 2 := by
  unfold meMassFillOpt at h
  split_ifs at h
  all_goals injection h with he
  all_goals injection he with e1 e2 e3 e4 e5
  all_goals subst e5
  all_goals assumption

/-- A mass fill among the fills of one mixed-event combination records
a rapidity that passed the gate. -/
theorem meCombFill_massFill_rap (cfg : Config) (ops : VecOps) (mult : ℚ)
    (t1 : Track) (t2 : V0) (name : String) (mu pt m rap : ℚ)
    (h : FillEvent.massFill name mu pt m rap ∈ meCombFill cfg ops mult t1 t2) :
    |rap| < 1 / 2 := by
  unfold meCombFill meQAFills at h
  rcases List.mem_append.mp h with h | h
  · exact absurd (mem_of_guard_mem h)
      (v0QAFillList_no_massFill t2 mult name mu pt m rap)
  · rw [Option.mem_toList, Option.mem_def] at h
    exact meMassFillOpt_massFill_rap cfg ops mult t1 t2 name mu pt m rap h

/-- Claim C3: neither the same-event engine nor the mixed-event engine
ever emits a mass-accumulator fill whose summed 4-vector rapidity has
absolute value at or above 0.5. -/
theorem engines_rapidity_gate (cfg : Config) (ops : VecOps)
    (collision : Collision) (tracks : List Track) (v0s : List V0)
    (pairsIn : List (Collision × List Track × Collision × List V0))
    (name : String) (mu pt m rap : ℚ) :
    (FillEvent.massFill name mu pt m rap ∈
        processSE cfg ops collision tracks v0s → |rap| < 1 / 2) ∧
    (FillEvent.massFill name mu pt m rap ∈
        processME cfg ops pairsIn → |rap| < 1 / 2) := by
  constructor
  · intro h
    unfold processSE at h
    split_ifs at h with hs
    · simp at h
    · rcases List.mem_append.mp h with h | h
      · rcases List.mem_append.mp h with h | h
        · rcases List.mem_append.mp h with h | h
          · simp at h
          · exact absurd h
              (seTrackFills_no_massFill cfg tracks name mu pt m rap)
        · exact absurd h (seV0Fills_no_massFill cfg
            (multEstimate cfg collision) v0s name mu pt m rap)
      · obtain ⟨p, -, h⟩ := List.mem_flatMap.mp h
        obtain ⟨k, -, h⟩ := List.mem_filterMap.mp h
        exact sePairFill_massFill_rap ops (multEstimate cfg collision)
          p k name mu pt m rap h
  · intro h
    unfold processME at h
    obtain ⟨q, -, h⟩ := List.mem_flatMap.mp h
    split_ifs at h with h1 h2
    · simp at h
    · simp at h
    · obtain ⟨t1, -, h⟩ := List.mem_flatMap.mp h
      obtain ⟨t2, -, h⟩ := List.mem_flatMap.mp h
      exact meCombFill_massFill_rap cfg ops (multEstimate cfg q.1)
        t1 t2 name mu pt m rap h

/-- Claim C3 witness: a fill emitted by the same-event engine on a
concrete accepted input has rapidity inside the gate. -/
theorem engines_rapidity_gate_witness : |(0 : ℚ)| < 1 / 2 :=
  (engines_rapidity_gate defaultConfig opsZero collGood [trackPion]
    [v0Good] [] "h3CKSInvMassUnlikeSign" 50 2 1 0).1 (by
      have hse : processSE defaultConfig opsZero collGood [trackPion] [v0Good] =
          [.count "hVertexZRec" 0, .count "hmult" 50,
           .massFill "h3CKSInvMassUnlikeSign" 50 2 1 0] := by
        norm_num [processSE, seTrackFills, sePions, seKshorts, seV0Accepted,
          seV0Fills, sePairFill, multEstimate, selectionPID, selectionTrack,
          isSelectedV0Daughter, chargeCompatible, SelectionV0, fdiv, fvalLt,
          massK0s, massPi, pionLV, kshortLV, v0QAFillList, defaultConfig,
          trackPion, v0Good, posDaughter, negDaughter, collGood, opsZero,
          List.filter, List.filterMap]
      rw [hse]
      simp)

/-- Claim C4: a same-event pair step only produces a fill when the pion
identity differs from both daughter identities of the composite, and
— conversely — any accepted pion and accepted composite whose pair step
produces a fill contribute that fill to the engine output, so a pion
skipped against one composite still pairs with others. -/
theorem sePairs_no_self_overlap (cfg : Config) (ops : VecOps)
    (collision : Collision) (tracks : List Track) (v0s : List V0) :
    (∀ (mult : ℚ) (p : Track) (k : V0) (e : FillEvent),
      sePairFill ops mult p k = some e →
      p.globalIndex ≠ k.posTrack.globalIndex ∧
      p.globalIndex ≠ k.negTrack.globalIndex) ∧
    (collision.sel8 = true →
      ∀ (p : Track) (k : V0) (e : FillEvent),
        p ∈ sePions cfg tracks →
        k ∈ seKshorts cfg (multEstimate cfg collision) v0s →
        sePairFill ops (multEstimate cfg collision) p k = some e →
        e ∈ processSE cfg ops collision tracks v0s) := by
  constructor
  · intro mult p k e h
    unfold sePairFill at h
    split_ifs at h with h1 h2 h3 h4
    exact ⟨h1, h2⟩
  · intro hs p k e hp hk he
    unfold processSE
    rw [hs]
    exact List.mem_append.mpr (Or.inr (List.mem_flatMap.mpr
      ⟨p, hp, List.mem_filterMap.mpr ⟨k, hk, he⟩⟩))

/-- Claim C4 witness: on a concrete accepted input the pair step proves
distinct identities and its fill reaches the engine output. -/
theorem sePairs_no_self_overlap_witness :
    ((1 : ℤ) ≠ 2 ∧ (1 : ℤ) ≠ 3) ∧
    FillEvent.massFill "h3CKSInvMassUnlikeSign" 50 2 1 0 ∈
      processSE defaultConfig opsZero collGood [trackPion] [v0Good] := by
  have hfill : sePairFill opsZero 50 trackPion v0Good =
      some (.massFill "h3CKSInvMassUnlikeSign" 50 2 1 0) := by
    norm_num [sePairFill, trackPion, v0Good, posDaughter, negDaughter,
      opsZero, pionLV, kshortLV]
  constructor
  · exact (sePairs_no_self_overlap defaultConfig opsZero collGood [trackPion]
      [v0Good]).1 50 trackPion v0Good _ hfill
  · refine (sePairs_no_self_overlap defaultConfig opsZero collGood [trackPion]
      [v0Good]).2 rfl trackPion v0Good _ ?_ ?_ ?_
    · norm_num [sePions, selectionPID, selectionTrack, trackPion,
        defaultConfig, List.filter]
    · norm_num [seKshorts, seV0Accepted, isSelectedV0Daughter,
        chargeCompatible, SelectionV0, fdiv, fvalLt, massK0s, v0Good,
        posDaughter, negDaughter, trackPion, defaultConfig, List.filter]
    · exact hfill

/-- Claim C8: every mixed-event collision pair supplied by the pairing
component joins two collisions with equal (vertex-z bucket,
multiplicity bucket) bin keys, both inside the binned region; no
cross-bin pair is formed. -/
theorem mixingPairs_same_bin (nMix : ℕ) (collisions : List Collision)
    (c1 c2 : Collision) (h : (c1, c2) ∈ mixingPairs nMix collisions) :
    binKey c1 = binKey c2 ∧ (binKey c1).isSome := by
  unfold mixingPairs at h
  obtain ⟨a, -, h⟩ := List.mem_flatMap.mp h
  obtain ⟨b, hb, heq⟩ := List.mem_map.mp h
  have hpred := (List.mem_filter.mp (List.mem_of_mem_take hb)).2
  simp only [Bool.and_eq_true, decide_eq_true_eq] at hpred
  obtain ⟨⟨-, hsome⟩, hkey⟩ := hpred
  rw [Prod.mk.injEq] at heq
  obtain ⟨h1, h2⟩ := heq
  subst h1
  subst h2
  exact ⟨hkey.symm, hsome⟩

/-- Claim C8 witness: two concrete collisions in the same bin form a
supplied pair with equal bin keys. -/
theorem mixingPairs_same_bin_witness :
    binKey collGood = binKey collPartner ∧ (binKey collGood).isSome :=
  mixingPairs_same_bin 5 [collGood, collPartner] collGood collPartner (by
    norm_num [mixingPairs, binKey, collGood, collPartner, List.filter])
